import Mathlib

/-!
Verification of the list-of-lists / list-of-items state-management core of
the vanilla-to-do-list web application.

The embedding follows the two model classes and the shared rendering logic:

* `VanillaToDoListsModel` (src/js/components/vanilla-to-do-lists.js):
  CRUD + toggle operations over the Collection of Lists.
* `VanillaToDoListModel` (src/js/components/vanilla-to-do-list.js):
  the single-List store (constructor lookup and the private write-back
  method), and the Item-level CRUD + toggle operations.
* The filter/count logic of `VanillaToDoListsView.render` and
  `VanillaToDoListView.render`, which is textually identical in both files.

Modelling conventions:

* Time is passed explicitly: every JavaScript `new Date()` becomes a `now : Nat`
  parameter.  A List's `id` (from `Date.getTime()`) and its `created` field
  (from `Date.toJSON()`) are both injective images of the same instant, so both
  are modelled by the same `Nat`.
* JavaScript `null` in `lastRenamed` / `lastUpdated` becomes `none : Option Nat`.
* Records created and maintained by the store always carry a boolean `done`
  flag (`createToDoList` initialises it to `false` and `toggle` negates it),
  matching the data model, so the store types use `done : Bool`.
* The view, by contrast, renders whatever was read back from local storage,
  where a record's `done` field may be the JavaScript value `undefined`;
  raw rendered records therefore use `done : Option Bool`, with `none`
  standing for `undefined`.  The render filters `done !== true` and
  `done !== false` are translated literally.
-/

namespace VanillaToDo

/-- An Item record as created by `VanillaToDoListModel.createToDoListItem`. -/
structure ToDoItem where
  id : Nat
  created : Nat
  lastUpdated : Option Nat
  text : String
  done : Bool
deriving DecidableEq

/-- A List record as created by `VanillaToDoListsModel.createToDoList`. -/
structure ToDoList where
  id : Nat
  created : Nat
  lastRenamed : Option Nat
  lastUpdated : Option Nat
  name : String
  done : Bool
  items : List ToDoItem
deriving DecidableEq

/-! ### The Collection-of-Lists store (`VanillaToDoListsModel`) -/

/-- Method `createToDoList` (vanilla-to-do-lists.js, lines 41-57): build the new
record from the creation instant and `push` it onto the collection. -/
def createToDoList (now : Nat) (toDoListName : String) (toDoLists : List ToDoList) :
    List ToDoList :=
  toDoLists ++ [{ id := now, created := now, lastRenamed := none, lastUpdated := none,
                  name := toDoListName, done := false, items := [] }]

/-- Method `updateToDoList` (vanilla-to-do-lists.js, lines 63-74): map over the
collection, renaming every record whose id matches and stamping `lastRenamed`. -/
def updateToDoList (now : Nat) (id : Nat) (toDoListNameNew : String)
    (toDoLists : List ToDoList) : List ToDoList :=
  toDoLists.map fun toDoList =>
    if toDoList.id = id then
      { toDoList with lastRenamed := some now, name := toDoListNameNew }
    else toDoList

/-- Method `deleteToDoList` (vanilla-to-do-lists.js, lines 79-85): keep the records
whose id differs (`toDoList.id !== id`). -/
def deleteToDoList (id : Nat) (toDoLists : List ToDoList) : List ToDoList :=
  toDoLists.filter fun toDoList => toDoList.id != id

/-- Method `toggleToDoList` (vanilla-to-do-lists.js, lines 90-99): negate `done` on
every record whose id matches. -/
def toggleToDoList (id : Nat) (toDoLists : List ToDoList) : List ToDoList :=
  toDoLists.map fun toDoList =>
    if toDoList.id = id then { toDoList with done := !toDoList.done } else toDoList

/-- Method `toggleAllToDoLists` (vanilla-to-do-lists.js, lines 103-110): negate
`done` on every record unconditionally. -/
def toggleAllToDoLists (toDoLists : List ToDoList) : List ToDoList :=
  toDoLists.map fun toDoList => { toDoList with done := !toDoList.done }

/-- Method `clearToDoLists` (vanilla-to-do-lists.js, lines 114-120): keep exactly the
records with `done === false`. -/
def clearToDoLists (toDoLists : List ToDoList) : List ToDoList :=
  toDoLists.filter fun toDoList => toDoList.done == false

/-! ### The Item-level operations of the single-List store (`VanillaToDoListModel`) -/

/-- Method `createToDoListItem` (vanilla-to-do-list.js, lines 57-71): build the new
Item from the creation instant and `push` it onto the List's items. -/
def createToDoListItem (now : Nat) (toDoListItemText : String) (items : List ToDoItem) :
    List ToDoItem :=
  items ++ [{ id := now, created := now, lastUpdated := none,
              text := toDoListItemText, done := false }]

/-- Method `updateToDoListItem` (vanilla-to-do-list.js, lines 76-87): map over the
items, retexting every record whose id matches and stamping `lastUpdated`. -/
def updateToDoListItem (now : Nat) (id : Nat) (toDoListItemTextNew : String)
    (items : List ToDoItem) : List ToDoItem :=
  items.map fun toDoListItem =>
    if toDoListItem.id = id then
      { toDoListItem with lastUpdated := some now, text := toDoListItemTextNew }
    else toDoListItem

/-- Method `deleteToDoListItem` (vanilla-to-do-list.js, lines 92-98). -/
def deleteToDoListItem (id : Nat) (items : List ToDoItem) : List ToDoItem :=
  items.filter fun toDoListItem => toDoListItem.id != id

/-- Method `toggleToDoListItem` (vanilla-to-do-list.js, lines 103-112). -/
def toggleToDoListItem (id : Nat) (items : List ToDoItem) : List ToDoItem :=
  items.map fun toDoListItem =>
    if toDoListItem.id = id then { toDoListItem with done := !toDoListItem.done }
    else toDoListItem

/-- Method `toggleAllToDoListItems` (vanilla-to-do-list.js, lines 116-123). -/
def toggleAllToDoListItems (items : List ToDoItem) : List ToDoItem :=
  items.map fun toDoListItem => { toDoListItem with done := !toDoListItem.done }

/-- Method `clearToDoList` (vanilla-to-do-list.js, lines 127-133): keep exactly the
items with `done === false`. -/
def clearToDoList (items : List ToDoItem) : List ToDoItem :=
  items.filter fun toDoListItem => toDoListItem.done == false

/-! ### The single-List store state (`VanillaToDoListModel` constructor and write-back) -/

/-- The `this.toDoList` field of `VanillaToDoListModel`.  When the constructor
finds no List with the requested id it falls back to the empty object `{}`,
whose `id`, `name` and `done` fields are all the JavaScript value `undefined`;
`Option` fields model that absence.  The constructor's last line
(`this.toDoList.items = this.toDoList.items || []`) makes `items` always
defined, so `items` is a plain list. -/
structure CurrentToDoList where
  id : Option Nat
  name : Option String
  done : Option Bool
  items : List ToDoItem
deriving DecidableEq

/-- The `VanillaToDoListModel` constructor (vanilla-to-do-list.js, lines 9-22):
look the requested id up in the collection read from storage; fall back to the
empty object, then default `items` to the empty array. -/
def initToDoListModel (toDoLists : List ToDoList) (toDoListId : Nat) : CurrentToDoList :=
  match toDoLists.find? fun toDoList => toDoList.id == toDoListId with
  | some toDoList =>
      { id := some toDoList.id, name := some toDoList.name,
        done := some toDoList.done, items := toDoList.items }
  | none => { id := none, name := none, done := none, items := [] }

/-- The private write-back method of `VanillaToDoListModel`
(vanilla-to-do-list.js, lines 34-44): map over the whole collection and, on
every List whose id matches the one the store was constructed with, stamp
`lastUpdated` and replace `items` with the changed items; then persist. -/
def storeChangedToDoList (toDoLists : List ToDoList) (toDoListId : Nat) (now : Nat)
    (itemsChanged : List ToDoItem) : List ToDoList :=
  toDoLists.map fun toDoList =>
    if toDoList.id = toDoListId then
      { toDoList with lastUpdated := some now, items := itemsChanged }
    else toDoList

/-! ### The render filter/count logic (`VanillaToDoListsView.render`,
`VanillaToDoListView.render`) -/

/-- A record as the render methods receive it back from local storage: only
the fields the filter/count logic inspects are kept, and `done` may be the
JavaScript value `undefined` (modelled as `none`) since nothing revalidates
stored data.  The same logic runs over Lists (vanilla-to-do-lists.js, lines
516-525) and over Items (vanilla-to-do-list.js, lines 481-490). -/
structure RawRecord where
  text : String
  done : Option Bool
deriving DecidableEq

/-- The pending subset: `records.filter(record => record.done !== true)`. -/
def filterPending (records : List RawRecord) : List RawRecord :=
  records.filter fun record => record.done != some true

/-- The done subset: `records.filter(record => record.done !== false)`. -/
def filterDone (records : List RawRecord) : List RawRecord :=
  records.filter fun record => record.done != some false

/-- The location hash selecting the filter: `#all`, `#pending` or `#done`. -/
inductive StatusFilter
  | all
  | pending
  | done
deriving DecidableEq

/-- The filter/count part of the render methods (vanilla-to-do-lists.js,
lines 516-580; vanilla-to-do-list.js, lines 481-522): when the sequence is
non-empty, compute the pending and done subsets and the three counts from the
full sequence, then reassign the displayed sequence according to the hash, and
emit the footer summary `` `${countAll} (${countPending}/${countDone})` ``.
Returns the displayed records and the summary text (`none` when the sequence
is empty and the footer is hidden). -/
def render (hash : StatusFilter) (records : List RawRecord) :
    List RawRecord × Option String :=
  if records.length > 0 then
    let recordsPending := filterPending records
    let recordsDone := filterDone records
    let countAll := records.length
    let countPending := recordsPending.length
    let countDone := recordsDone.length
    let displayed :=
      if hash = StatusFilter.pending then recordsPending
      else if hash = StatusFilter.done then recordsDone
      else records
    (displayed,
      some (toString countAll ++ " (" ++ toString countPending ++ "/" ++
            toString countDone ++ ")"))
  else ([], none)

/-! ### Claims -/

/-- Claim C2: for every Collection, `clearToDoLists` (and `clearToDoList` for
Items) removes exactly the records whose `done` flag is true and keeps all
others, preserving their relative order. -/
theorem clearDone_removes_exactly_done (toDoLists : List ToDoList) (items : List ToDoItem) :
    List.Sublist (clearToDoLists toDoLists) toDoLists
    ∧ (∀ toDoList, toDoList ∈ clearToDoLists toDoLists ↔
        toDoList ∈ toDoLists ∧ toDoList.done ≠ true)
    ∧ List.Sublist (clearToDoList items) items
    ∧ (∀ toDoListItem, toDoListItem ∈ clearToDoList items ↔
        toDoListItem ∈ items ∧ toDoListItem.done ≠ true) := by
  refine ⟨List.filter_sublist _, fun l => ?_, List.filter_sublist _, fun it => ?_⟩ <;>
    simp [clearToDoLists, clearToDoList, List.mem_filter]

/-- Claim C3: `toggleAllToDoLists` (and `toggleAllToDoListItems`) is an
involution: applying it twice returns every `done` flag to its original value,
because it is a pure per-record flip of `done`. -/
theorem toggleAll_involution (toDoLists : List ToDoList) (items : List ToDoItem) :
    toggleAllToDoLists (toggleAllToDoLists toDoLists) = toDoLists
    ∧ toggleAllToDoListItems (toggleAllToDoListItems items) = items := by
  constructor
  · induction toDoLists with
    | nil => rfl
    | cons l ls ih =>
      simp only [toggleAllToDoLists, List.map_cons] at ih ⊢
      simp [ih, Bool.not_not]
  · induction items with
    | nil => rfl
    | cons it its ih =>
      simp only [toggleAllToDoListItems, List.map_cons] at ih ⊢
      simp [ih, Bool.not_not]

/-- Claim C9: `clearToDoLists` (and `clearToDoList`) is idempotent: applying
it twice yields the same Collection as applying it once. -/
theorem clearDone_idempotent (toDoLists : List ToDoList) (items : List ToDoItem) :
    clearToDoLists (clearToDoLists toDoLists) = clearToDoLists toDoLists
    ∧ clearToDoList (clearToDoList items) = clearToDoList items := by
  constructor
  · simp [clearToDoLists, List.filter_filter]
  · simp [clearToDoList, List.filter_filter]

/-- Claim C4: `createToDoList` appends exactly one new List to the end of the
Collection, leaving all existing Lists unchanged; the new List's `id` and
`created` are derived from the current instant, `lastRenamed` and
`lastUpdated` are unset, `done` is false and `items` is empty.  In particular,
from the empty Collection, `createToDoList` with name "Groceries" yields
exactly one such List named "Groceries". -/
theorem createToDoList_appends (now : Nat) (toDoListName : String) (toDoLists : List ToDoList) :
    (∃ toDoList : ToDoList,
        createToDoList now toDoListName toDoLists = toDoLists ++ [toDoList]
        ∧ toDoList.id = now ∧ toDoList.created = now
        ∧ toDoList.lastRenamed = none ∧ toDoList.lastUpdated = none
        ∧ toDoList.name = toDoListName ∧ toDoList.done = false ∧ toDoList.items = [])
    ∧ createToDoList now "Groceries" [] =
        [{ id := now, created := now, lastRenamed := none, lastUpdated := none,
           name := "Groceries", done := false, items := [] }] :=
  ⟨⟨_, rfl, rfl, rfl, rfl, rfl, rfl, rfl, rfl⟩, rfl⟩

/-- Claim C5: invoking `updateToDoList`, `deleteToDoList` or `toggleToDoList`
with an id that matches no List in the Collection is a silent no-op: the
Collection is unchanged and no error is signalled. -/
theorem unknown_id_mutations_noop (now id : Nat) (toDoListNameNew : String)
    (toDoLists : List ToDoList) (h : ∀ toDoList ∈ toDoLists, toDoList.id ≠ id) :
    updateToDoList now id toDoListNameNew toDoLists = toDoLists
    ∧ deleteToDoList id toDoLists = toDoLists
    ∧ toggleToDoList id toDoLists = toDoLists := by
  refine ⟨?_, ?_, ?_⟩
  · calc updateToDoList now id toDoListNameNew toDoLists
        = toDoLists.map fun toDoList => toDoList :=
          List.map_congr_left fun l hl => if_neg (h l hl)
      _ = toDoLists := List.map_id' toDoLists
  · exact List.filter_eq_self.mpr fun l hl => by simpa using h l hl
  · calc toggleToDoList id toDoLists
        = toDoLists.map fun toDoList => toDoList :=
          List.map_congr_left fun l hl => if_neg (h l hl)
      _ = toDoLists := List.map_id' toDoLists

/-- Witness for Claim C5 at a concrete input: a one-List Collection, mutated
with an id it does not contain. -/
theorem unknown_id_mutations_noop_witness :
    updateToDoList 5 2 "renamed" [⟨1, 0, none, none, "groceries", false, []⟩]
      = [⟨1, 0, none, none, "groceries", false, []⟩]
    ∧ deleteToDoList 2 [⟨1, 0, none, none, "groceries", false, []⟩]
      = [⟨1, 0, none, none, "groceries", false, []⟩]
    ∧ toggleToDoList 2 [⟨1, 0, none, none, "groceries", false, []⟩]
      = [⟨1, 0, none, none, "groceries", false, []⟩] :=
  unknown_id_mutations_noop 5 2 "renamed" _ (by decide)

/-- Claim C6: constructing the single-List store with an id not present in the
Collection yields the "invalid" state — empty items and no id field — and in
that state every subsequent Item mutation's write-back leaves the persisted
Collection unchanged (the mutation is lost). -/
theorem invalid_id_state (toDoLists : List ToDoList) (toDoListId : Nat)
    (h : ∀ toDoList ∈ toDoLists, toDoList.id ≠ toDoListId) :
    (initToDoListModel toDoLists toDoListId).id = none
    ∧ (initToDoListModel toDoLists toDoListId).items = []
    ∧ ∀ (now : Nat) (itemsChanged : List ToDoItem),
        storeChangedToDoList toDoLists toDoListId now itemsChanged = toDoLists := by
  have hfind : (toDoLists.find? fun toDoList => toDoList.id == toDoListId) = none :=
    List.find?_eq_none.mpr fun l hl => by simpa using h l hl
  refine ⟨?_, ?_, fun now itemsChanged => ?_⟩
  · simp [initToDoListModel, hfind]
  · simp [initToDoListModel, hfind]
  · calc storeChangedToDoList toDoLists toDoListId now itemsChanged
        = toDoLists.map fun toDoList => toDoList :=
          List.map_congr_left fun l hl => if_neg (h l hl)
      _ = toDoLists := List.map_id' toDoLists

/-- Witness for Claim C6 at a concrete input: a one-List Collection and a
store constructed with an absent id. -/
theorem invalid_id_state_witness :
    (initToDoListModel [⟨1, 0, none, none, "groceries", false, []⟩] 2).id = none
    ∧ (initToDoListModel [⟨1, 0, none, none, "groceries", false, []⟩] 2).items = []
    ∧ ∀ (now : Nat) (itemsChanged : List ToDoItem),
        storeChangedToDoList [⟨1, 0, none, none, "groceries", false, []⟩] 2 now itemsChanged
          = [⟨1, 0, none, none, "groceries", false, []⟩] :=
  invalid_id_state [⟨1, 0, none, none, "groceries", false, []⟩] 2 (by decide)

/-- Claim C7: when the Collection contains the addressed List (and no other
List shares its id), the write-back of every Item mutation stamps
`lastUpdated` and replaces `items` on that parent List only: the Lists before
and after it are unchanged, and the parent's `id`, `created`, `lastRenamed`,
`name` and `done` fields are untouched (the record update keeps them). -/
theorem store_writeback_frame (now toDoListId : Nat) (pre post : List ToDoList)
    (l : ToDoList) (itemsChanged : List ToDoItem) (hl : l.id = toDoListId)
    (hpre : ∀ l' ∈ pre, l'.id ≠ toDoListId) (hpost : ∀ l' ∈ post, l'.id ≠ toDoListId) :
    storeChangedToDoList (pre ++ l :: post) toDoListId now itemsChanged
      = pre ++ { l with lastUpdated := some now, items := itemsChanged } :: post := by
  have hmap : ∀ (xs : List ToDoList), (∀ l' ∈ xs, l'.id ≠ toDoListId) →
      (xs.map fun toDoList =>
        if toDoList.id = toDoListId then
          { toDoList with lastUpdated := some now, items := itemsChanged }
        else toDoList) = xs := fun xs hxs =>
    ((List.map_congr_left fun x hx => if_neg (hxs x hx)).trans (List.map_id' xs))
  simp only [storeChangedToDoList, List.map_append, List.map_cons, if_pos hl,
    hmap pre hpre, hmap post hpost]

/-- Witness for Claim C7 at a concrete input: a three-List Collection whose
middle List is the addressed one. -/
theorem store_writeback_frame_witness :
    storeChangedToDoList
        [⟨1, 0, none, none, "a", false, []⟩, ⟨2, 0, none, none, "b", true, []⟩,
         ⟨3, 0, none, none, "c", false, []⟩] 2 9
        [⟨7, 7, none, "milk", false⟩]
      = [⟨1, 0, none, none, "a", false, []⟩] ++
          { (⟨2, 0, none, none, "b", true, []⟩ : ToDoList) with
              lastUpdated := some 9, items := [⟨7, 7, none, "milk", false⟩] } ::
          [⟨3, 0, none, none, "c", false, []⟩] :=
  store_writeback_frame 9 2 [⟨1, 0, none, none, "a", false, []⟩]
    [⟨3, 0, none, none, "c", false, []⟩] ⟨2, 0, none, none, "b", true, []⟩
    [⟨7, 7, none, "milk", false⟩] rfl (by decide) (by decide)

/-- Claim C10: when several records share the same id (the documented
millisecond-collision case), the id-addressed mutations act on every matching
record, not just the first: a matching record is renamed by `updateToDoList`,
flipped by `toggleToDoList` and removed by `deleteToDoList` wherever it sits
in the Collection — in particular after earlier records that also match — and
likewise `updateToDoListItem` retexts every matching Item. -/
theorem duplicate_id_mutations_hit_all (now id : Nat) (toDoListNameNew : String)
    (pre post : List ToDoList) (l : ToDoList) (h : l.id = id) :
    updateToDoList now id toDoListNameNew (pre ++ l :: post)
      = updateToDoList now id toDoListNameNew pre ++
          { l with lastRenamed := some now, name := toDoListNameNew } ::
          updateToDoList now id toDoListNameNew post
    ∧ toggleToDoList id (pre ++ l :: post)
      = toggleToDoList id pre ++ { l with done := !l.done } :: toggleToDoList id post
    ∧ deleteToDoList id (pre ++ l :: post)
      = deleteToDoList id pre ++ deleteToDoList id post
    ∧ ∀ (ipre ipost : List ToDoItem) (it : ToDoItem) (textNew : String), it.id = id →
        updateToDoListItem now id textNew (ipre ++ it :: ipost)
          = updateToDoListItem now id textNew ipre ++
              { it with lastUpdated := some now, text := textNew } ::
              updateToDoListItem now id textNew ipost := by
  refine ⟨?_, ?_, ?_, fun ipre ipost it textNew hit => ?_⟩
  · simp only [updateToDoList, List.map_append, List.map_cons, if_pos h]
  · simp only [toggleToDoList, List.map_append, List.map_cons, if_pos h]
  · simp only [deleteToDoList, List.filter_append, List.filter_cons]
    simp [h]
  · simp only [updateToDoListItem, List.map_append, List.map_cons, if_pos hit]

/-- Witness for Claim C10 at a concrete input: two Lists sharing id 7 (the
second is the one the theorem is applied to) and two Items sharing id 7. -/
theorem duplicate_id_mutations_hit_all_witness :
    updateToDoList 9 7 "renamed" [⟨7, 0, none, none, "a", false, []⟩,
        ⟨7, 1, none, none, "b", false, []⟩]
      = updateToDoList 9 7 "renamed" [⟨7, 0, none, none, "a", false, []⟩] ++
          { (⟨7, 1, none, none, "b", false, []⟩ : ToDoList) with
              lastRenamed := some 9, name := "renamed" } ::
          updateToDoList 9 7 "renamed" []
    ∧ toggleToDoList 7 [⟨7, 0, none, none, "a", false, []⟩,
        ⟨7, 1, none, none, "b", false, []⟩]
      = toggleToDoList 7 [⟨7, 0, none, none, "a", false, []⟩] ++
          { (⟨7, 1, none, none, "b", false, []⟩ : ToDoList) with
              done := !false } :: toggleToDoList 7 []
    ∧ deleteToDoList 7 [⟨7, 0, none, none, "a", false, []⟩,
        ⟨7, 1, none, none, "b", false, []⟩]
      = deleteToDoList 7 [⟨7, 0, none, none, "a", false, []⟩] ++ deleteToDoList 7 []
    ∧ ∀ (ipre ipost : List ToDoItem) (it : ToDoItem) (textNew : String), it.id = 7 →
        updateToDoListItem 9 7 textNew (ipre ++ it :: ipost)
          = updateToDoListItem 9 7 textNew ipre ++
              { it with lastUpdated := some 9, text := textNew } ::
              updateToDoListItem 9 7 textNew ipost :=
  duplicate_id_mutations_hit_all 9 7 "renamed" [⟨7, 0, none, none, "a", false, []⟩] []
    ⟨7, 1, none, none, "b", false, []⟩ rfl

/-- Claim C1: for every sequence of rendered records, the pending subset
(`done !== true`) and the done subset (`done !== false`) have lengths summing
to the sequence's length plus the number of records whose `done` is
`undefined`; hence the lengths sum to exactly the sequence's length precisely
when no record has an `undefined` `done`, and every record with `undefined`
`done` lies in both subsets, inflating both counts by one. -/
theorem filter_partition_counts (S : List RawRecord) :
    ((filterPending S).length + (filterDone S).length
        = S.length + (S.filter fun record => record.done == none).length)
    ∧ (S.length = (filterPending S).length + (filterDone S).length
        ↔ ∀ record ∈ S, record.done ≠ none)
    ∧ (∀ record ∈ S, record.done = none →
        record ∈ filterPending S ∧ record ∈ filterDone S) := by
  have key : ∀ (T : List RawRecord),
      (filterPending T).length + (filterDone T).length
        = T.length + (T.filter fun record => record.done == none).length := by
    intro T
    induction T with
    | nil => rfl
    | cons r T ih =>
      rcases hr : r.done with _ | b
      · simp only [filterPending, filterDone] at ih ⊢
        simp [List.filter_cons, hr]
        omega
      · cases b <;>
          · simp only [filterPending, filterDone] at ih ⊢
            simp [List.filter_cons, hr]
            omega
  refine ⟨key S, ?_, fun record hrec hnone => ?_⟩
  · rw [key S]
    constructor
    · intro hlen record hrec
      have hu : (S.filter fun record => record.done == none).length = 0 := by omega
      have := List.filter_eq_nil_iff.mp (List.length_eq_zero.mp hu) record hrec
      simpa using this
    · intro hall
      have hnil : (S.filter fun record => record.done == none) = [] :=
        List.filter_eq_nil_iff.mpr fun record hrec => by simpa using hall record hrec
      simp [hnil]
  · constructor <;> simp [filterPending, filterDone, List.mem_filter, hrec, hnone]

/-- Claim C8: for every non-empty sequence and every selected filter, the
rendered summary text is computed from the unfiltered full sequence —
`` `${countAll} (${countPending}/${countDone})` `` — and the filter changes
only the displayed subset, never the counts.  In particular the two-item
sequence [A pending, B done] rendered under the pending filter displays only
A yet shows summary "2 (1/1)". -/
theorem summary_counts_unfiltered (hash : StatusFilter) (records : List RawRecord)
    (h : records ≠ []) :
    (render hash records).2 = (render StatusFilter.all records).2
    ∧ (render hash records).2
      = some (toString records.length ++ " (" ++ toString (filterPending records).length
          ++ "/" ++ toString (filterDone records).length ++ ")")
    ∧ render StatusFilter.pending [⟨"A", some false⟩, ⟨"B", some true⟩]
      = ([⟨"A", some false⟩], some "2 (1/1)") := by
  have hpos : records.length > 0 := List.length_pos.mpr h
  refine ⟨?_, ?_, ?_⟩
  · simp [render, hpos]
  · simp [render, hpos]
  · rfl

/-- Witness for Claim C8 at a concrete input: the spec's two-item scenario
rendered under the pending filter. -/
theorem summary_counts_unfiltered_witness :
    (render StatusFilter.pending [⟨"A", some false⟩, ⟨"B", some true⟩]).2
      = (render StatusFilter.all [⟨"A", some false⟩, ⟨"B", some true⟩]).2
    ∧ (render StatusFilter.pending [⟨"A", some false⟩, ⟨"B", some true⟩]).2
      = some (toString ([(⟨"A", some false⟩ : RawRecord), ⟨"B", some true⟩] : List RawRecord).length
          ++ " (" ++ toString (filterPending [⟨"A", some false⟩, ⟨"B", some true⟩]).length
          ++ "/" ++ toString (filterDone [⟨"A", some false⟩, ⟨"B", some true⟩]).length ++ ")")
    ∧ render StatusFilter.pending [⟨"A", some false⟩, ⟨"B", some true⟩]
      = ([⟨"A", some false⟩], some "2 (1/1)") :=
  summary_counts_unfiltered StatusFilter.pending
    [⟨"A", some false⟩, ⟨"B", some true⟩] (by decide)

end VanillaToDo
